import Mathlib

/-!
Verification development for the yorm library (attribute-to-file
synchronization).  The document tree, exception taxonomy, the functions of
`common.py`, and the abstract converter classes of `bases/converter.py` are
embedded directly from the source.  The `Mapper` engine, the concrete scalar
converters and the attribute-interception protocol are part of the repository
but their modules are not in the source snapshot (only their tests are), so
they are modelled from the specification; each such definition says so in its
doc comment.
-/

set_option autoImplicit false

namespace Yorm

/-- Document tree node, the generic parsed representation of the backing
document: mappings, sequences and scalars (string, integer, boolean, null). -/
inductive Value : Type where
  | null : Value
  | bool (b : Bool) : Value
  | int (n : Int) : Value
  | str (s : String) : Value
  | list (xs : List Value) : Value
  | dict (pairs : List (String × Value)) : Value

/-- Exception kinds reachable from the embedded code.  `fileNotFoundError` is
the Python built-in raised by `open`; `fileError`, `contentError`,
`conversionError` and `fileDeletedError` are the library classes declared in
`common.py` and `exceptions`. -/
inductive PyError : Type where
  | fileNotFoundError : PyError
  | fileError (msg : String) : PyError
  | contentError (msg : String) : PyError
  | conversionError : PyError
  | fileDeletedError : PyError
  | attributeError : PyError
deriving DecidableEq, Repr

/-- Class test for the library type `FileError` (`common.py`): only the
`fileError` constructor is an instance of the class `FileError`. -/
def PyError.isFileError : PyError → Bool
  | .fileError _ => true
  | _ => false

/-- Class test for the base class `YORMException` (`common.py`): the four
library exception classes derive from it, the Python built-ins do not. -/
def PyError.isYORMException : PyError → Bool
  | .fileError _ => true
  | .contentError _ => true
  | .conversionError => true
  | .fileDeletedError => true
  | .fileNotFoundError => false
  | .attributeError => false

/-- Python truthiness of a document tree node: `None`, `False`, `0`, the empty
string, the empty sequence and the empty mapping are falsy. -/
def Value.falsy : Value → Bool
  | .null => true
  | .bool b => !b
  | .int n => n == 0
  | .str s => s == ""
  | .list xs => xs.isEmpty
  | .dict ps => ps.isEmpty

/-- Python `isinstance(data, dict)` on a document tree node. -/
def Value.isDict : Value → Bool
  | .dict _ => true
  | _ => false

/-- A file system snapshot for the disk helpers: an association from paths to
the text of existing readable files. -/
abbrev FileSystem : Type := List (String × String)

/-- First-match association list lookup (Python attribute and key lookup). -/
def alookup {α : Type} (k : String) : List (String × α) → Option α
  | [] => none
  | (k₂, v) :: rest => if k₂ = k then some v else alookup k rest

/-- Association list update: overwrite the first binding of the key, append a
new binding at the end when the key is absent (Python `setattr` order). -/
def aset {α : Type} (k : String) (v : α) : List (String × α) → List (String × α)
  | [] => [(k, v)]
  | (k₂, v₂) :: rest => if k₂ = k then (k, v) :: rest else (k₂, v₂) :: aset k v rest

/-- Embeds `common.read_text` (common.py lines 84-96): `open(path).read()`.
The function does not catch anything, so a missing path surfaces the Python
built-in `FileNotFoundError` raised by `open`. -/
def read_text (fs : FileSystem) (path : String) : Except PyError String :=
  match alookup path fs with
  | some text => .ok text
  | none => .error .fileNotFoundError

/-- Embeds `common.load_yaml` (common.py lines 99-119).  The third-party
`yaml.load` is an external collaborator, so its outcome is the first argument:
either a parse failure message or the parsed node.  The body is the source
logic: wrap a parse failure in `ContentError`, replace a falsy result by the
empty mapping (`data = yaml.load(text) or \x7b\x7d`), reject a non-mapping
with `ContentError`, and return the mapping. -/
def load_yaml (parsed : Except String Value) (path : String) : Except PyError Value :=
  match parsed with
  | .error exc =>
      .error (.contentError ("invalid contents: " ++ path ++ ":\n" ++ exc))
  | .ok v =>
      let data := if v.falsy then Value.dict [] else v
      if data.isDict then .ok data
      else .error (.contentError ("invalid contents: " ++ path))

/-- Runtime value of an object attribute (the shapes the scalar converters
produce and consume). -/
inductive PyVal : Type where
  | none : PyVal
  | int (n : Int) : PyVal
  | str (s : String) : PyVal
  | bool (b : Bool) : PyVal
deriving DecidableEq, Repr

/-- Modelled from the spec: the concrete scalar converter classes (`Integer`,
`String`, `Boolean`) are part of the repository but absent from the source
snapshot; the spec gives each a canonical default, a best-effort coercing
`to_value` that signals `ConversionError` on irrecoverable mismatch, and a
`to_data` inverse. -/
inductive Conv : Type where
  | integer : Conv
  | string : Conv
  | boolean : Conv
deriving DecidableEq, Repr

/-- Modelled from the spec: canonical empty/default instance per converter
(zero integer, empty string, false). -/
def Conv.create_default : Conv → PyVal
  | .integer => .int 0
  | .string => .str ""
  | .boolean => .bool false

/-- Modelled from the spec: the string tokens a boolean converter reads as
false; every other token is boolean-like true. -/
def falsyTokens : List String :=
  ["false", "f", "no", "n", "disabled", "off", "0", ""]

/-- Modelled from the spec: best-effort coercion of a data node to the value
type of the converter; an irrecoverable mismatch signals `ConversionError`. -/
def Conv.to_value : Conv → Value → Except PyError PyVal
  | .integer, .null => .ok (.int 0)
  | .integer, .int n => .ok (.int n)
  | .integer, .bool b => .ok (.int (if b then 1 else 0))
  | .integer, .str s =>
      match s.toInt? with
      | some n => .ok (.int n)
      | Option.none => .error .conversionError
  | .integer, _ => .error .conversionError
  | .string, .null => .ok (.str "")
  | .string, .str s => .ok (.str s)
  | .string, .int n => .ok (.str (toString n))
  | .string, .bool b => .ok (.str (if b then "true" else "false"))
  | .string, _ => .error .conversionError
  | .boolean, .null => .ok (.bool false)
  | .boolean, .bool b => .ok (.bool b)
  | .boolean, .int n => .ok (.bool (n != 0))
  | .boolean, .str s => .ok (.bool (!(falsyTokens.contains s)))
  | .boolean, _ => .error .conversionError

/-- Modelled from the spec: render an attribute value back to a data node;
`None` attribute values are stored as the null scalar. -/
def Conv.to_data : Conv → PyVal → Value
  | _, .none => .null
  | .integer, .int n => .int n
  | .integer, .bool b => .int (if b then 1 else 0)
  | .integer, .str s =>
      match s.toInt? with
      | some n => .int n
      | Option.none => .null
  | .string, .str s => .str s
  | .string, .int n => .str (toString n)
  | .string, .bool b => .str (if b then "true" else "false")
  | .boolean, .bool b => .bool b
  | .boolean, .int n => .bool (n != 0)
  | .boolean, .str s => .bool (!(falsyTokens.contains s))

/-- Modelled from the spec: converter inference from the runtime shape of a
data value, used by permissive (non-strict) fetch.  A scalar maps to the
matching scalar converter; an unrecognized shape signals `ConversionError`. -/
def match_type : Value → Except PyError Conv
  | .int _ => .ok .integer
  | .str _ => .ok .string
  | .bool _ => .ok .boolean
  | _ => .error .conversionError

/-- A container converter class of `bases/converter.py`: a concrete subclass
supplies the blank instance built by `cls.__new__`, plus `update_value` and
`to_data`; the abstract base derives `create_default`, `to_value` and
`format_data` from them. -/
structure ContainerClass (V : Type) : Type where
  newBlank : V
  update_value : V → Value → Bool → V
  to_data : V → Value

/-- Embeds `Container.create_default` (converter.py lines 34-36):
`cls.__new__(cls)`. -/
def ContainerClass.create_default {V : Type} (c : ContainerClass V) : V :=
  c.newBlank

/-- Embeds `Container.to_value` (converter.py lines 38-42): build a default
instance, merge the data into it with `update_value(data, auto_attr=True)`,
and return that same instance. -/
def ContainerClass.to_value {V : Type} (c : ContainerClass V) (data : Value) : V :=
  c.update_value c.create_default data true

/-- Embeds `Container.format_data` (converter.py lines 49-51):
`self.to_data(self)`. -/
def ContainerClass.format_data {V : Type} (c : ContainerClass V) (v : V) : Value :=
  c.to_data v

/-- A sample concrete container converter: an integer sequence whose
`update_value` replaces the contents with the converted data elements.  It
exercises the abstract `Container` base class on concrete data. -/
def IntList : ContainerClass (List Int) :=
  { newBlank := []
    update_value := fun _old data _autoAttr =>
      match data with
      | .list xs => xs.filterMap (fun v => match v with | .int n => some n | _ => Option.none)
      | _ => []
    to_data := fun xs => .list (xs.map (fun n => .int n)) }

/-- Modelled from the spec: the state of the `Mapper` synchronization engine
(`yorm/mapper.py` is part of the repository but absent from the source
snapshot; its behavior is fixed by the spec and `test/test_mapper.py`).  The
file content is kept as its parsed tree, since the text-tree collaborator is
external; `fileExists` covers both the real file and the fake-mode simulated
file; `storeCount` counts the writes performed by `store()`; `batch` records
an open batch scope. -/
structure Mapper : Type where
  path : String
  attrs : List (String × Conv)
  strict : Bool
  objAttrs : List (String × PyVal)
  fileExists : Bool
  fileData : List (String × Value)
  deleted : Bool
  modified : Bool
  batch : Bool
  storeCount : Nat

/-- Modelled from the spec: construction binds the object, the path and the
schema; `modified` starts true (nothing synchronized yet); nothing is created
on disk. -/
def Mapper.init (path : String) (attrs : List (String × Conv)) (strict : Bool)
    (objAttrs : List (String × PyVal)) : Mapper :=
  { path := path, attrs := attrs, strict := strict, objAttrs := objAttrs,
    fileExists := false, fileData := [], deleted := false, modified := true,
    batch := false, storeCount := 0 }

/-- Modelled from the spec: `create()` is idempotent; if the file does not
exist it creates an empty file, marks not-deleted and sets `modified`;
calling it again is a no-op. -/
def Mapper.create (m : Mapper) : Mapper :=
  if m.fileExists then m
  else { m with fileExists := true, fileData := [],
                deleted := false, modified := true }

/-- Modelled from the spec: `delete()` is idempotent; it removes the file (or
simulates removal) and sets `deleted` and `modified`. -/
def Mapper.delete (m : Mapper) : Mapper :=
  { m with fileExists := false, fileData := [], deleted := true,
           modified := true }

/-- Modelled from the spec: the schema pass of `fetch()`; for every schema
attribute in declaration order, convert the matching tree value through the
converter, or assign the converter default when the key is absent. -/
def fetchAttrs (data : List (String × Value)) :
    List (String × Conv) → List (String × PyVal) →
    Except PyError (List (String × PyVal))
  | [], obj => .ok obj
  | (name, conv) :: rest, obj =>
    match alookup name data with
    | some v =>
        match conv.to_value v with
        | .ok pv => fetchAttrs data rest (aset name pv obj)
        | .error e => .error e
    | Option.none => fetchAttrs data rest (aset name conv.create_default obj)

/-- Modelled from the spec: the permissive pass of `fetch()`; for every tree
key not in the schema, infer a converter from the data shape, register it in
the schema and assign the converted value to the object. -/
def autoAttrs :
    List (String × Value) → List (String × Conv) → List (String × PyVal) →
    Except PyError (List (String × Conv) × List (String × PyVal))
  | [], attrs, obj => .ok (attrs, obj)
  | (key, v) :: rest, attrs, obj =>
    match alookup key attrs with
    | some _ => autoAttrs rest attrs obj
    | Option.none =>
      match match_type v with
      | .error e => .error e
      | .ok conv =>
        match conv.to_value v with
        | .error e => .error e
        | .ok pv => autoAttrs rest (attrs ++ [(key, conv)]) (aset key pv obj)

/-- Modelled from the spec: `fetch()` fails with `FileDeletedError` after
`delete()` without an intervening `create()`; otherwise it creates the file
first if missing, runs the schema pass, runs the permissive pass when
`strict` is false, and clears `modified`. -/
def Mapper.fetch (m : Mapper) : Except PyError Mapper :=
  if m.deleted then .error .fileDeletedError
  else
    let m₁ := m.create
    match fetchAttrs m₁.fileData m₁.attrs m₁.objAttrs with
    | .error e => .error e
    | .ok obj₁ =>
      if m₁.strict then .ok { m₁ with objAttrs := obj₁, modified := false }
      else
        match autoAttrs m₁.fileData m₁.attrs obj₁ with
        | .error e => .error e
        | .ok (attrs₂, obj₂) =>
            .ok { m₁ with attrs := attrs₂, objAttrs := obj₂, modified := false }

/-- Modelled from the spec: serialization of every schema attribute in
declaration order through its converter `to_data`. -/
def storeData : List (String × Conv) → List (String × PyVal) → List (String × Value)
  | [], _ => []
  | (name, conv) :: rest, obj =>
      (name, conv.to_data ((alookup name obj).getD conv.create_default)) ::
        storeData rest obj

/-- Modelled from the spec: `store()` ensures the file exists (auto-create),
serializes the schema attributes into a tree and writes it as the new file
content, counting one write. -/
def Mapper.store (m : Mapper) : Mapper :=
  let m₁ := m.create
  { m₁ with fileData := storeData m₁.attrs m₁.objAttrs,
            storeCount := m₁.storeCount + 1 }

/-- Modelled from the spec: the `text` property setter writes raw content
directly to the file and marks the mapper so the next `fetch()` re-parses;
the content is given as its parsed tree. -/
def Mapper.setText (m : Mapper) (data : List (String × Value)) : Mapper :=
  { m with fileExists := true, fileData := data, modified := true }

/-- Modelled from the spec: the attribute-interception protocol on write; a
mapped attribute assignment updates the object, marks the mapper modified and
triggers `store()` immediately unless a batch scope is active; an unmapped
assignment only updates the object. -/
def Mapper.setattrI (m : Mapper) (name : String) (v : PyVal) : Mapper :=
  let m₁ := { m with objAttrs := aset name v m.objAttrs }
  if (alookup name m.attrs).isSome then
    let m₂ := { m₁ with modified := true }
    if m.batch then m₂ else m₂.store
  else m₁

/-- Modelled from the spec: entering a batch scope suspends write-after-set. -/
def Mapper.batchEnter (m : Mapper) : Mapper :=
  { m with batch := true }

/-- Modelled from the spec: leaving a batch scope (normal or exceptional exit)
resumes write-after-set and performs exactly one `store()`. -/
def Mapper.batchExit (m : Mapper) : Mapper :=
  Mapper.store { m with batch := false }

/-- Concrete sample schema mirroring test_mapper.py: two integer attributes. -/
def demoAttrs : List (String × Conv) :=
  [("var2", Conv.integer), ("var3", Conv.integer)]

/-- Concrete sample object mirroring test_mapper.py: one unmapped attribute. -/
def demoObj : List (String × PyVal) :=
  [("var1", PyVal.int 1)]

/-- The mapper of test_mapper.py immediately after construction. -/
def demoInit : Mapper :=
  Mapper.init "fake/path/to/file" demoAttrs true demoObj

/-- The state the demo mapper reaches after create() and a successful
fetch(): both schema attributes hold their converter defaults. -/
def demoFetched : Mapper :=
  { path := "fake/path/to/file", attrs := demoAttrs, strict := true,
    objAttrs := [("var1", PyVal.int 1), ("var2", PyVal.int 0), ("var3", PyVal.int 0)],
    fileExists := true, fileData := [], deleted := false, modified := false,
    batch := false, storeCount := 0 }

/-- A strict mapper whose file contains a key absent from the schema. -/
def demoStrict : Mapper :=
  { path := "p", attrs := demoAttrs, strict := true, objAttrs := demoObj,
    fileExists := true, fileData := [("var4", Value.str "foo")], deleted := false,
    modified := true, batch := false, storeCount := 0 }

/-- The same mapper in permissive mode. -/
def demoPermissive : Mapper :=
  { demoStrict with strict := false }

/-- Result of fetch() on the strict mapper: the unknown key is ignored. -/
def demoStrictFetched : Mapper :=
  { demoStrict with
    objAttrs := [("var1", PyVal.int 1), ("var2", PyVal.int 0), ("var3", PyVal.int 0)],
    modified := false }

/-- Result of fetch() on the permissive mapper: the unknown key is added with
an inferred string converter. -/
def demoPermissiveFetched : Mapper :=
  { demoPermissive with
    attrs := demoAttrs ++ [("var4", Conv.string)],
    objAttrs := [("var1", PyVal.int 1), ("var2", PyVal.int 0), ("var3", PyVal.int 0),
                 ("var4", PyVal.str "foo")],
    modified := false }

/-! Association list lemmas. -/

theorem alookup_cons_none {α : Type} {k k₂ : String} {v : α} {rest : List (String × α)}
    (h : alookup k ((k₂, v) :: rest) = Option.none) :
    k₂ ≠ k ∧ alookup k rest = Option.none := by
  by_cases hk : k₂ = k
  · simp [alookup, hk] at h
  · simpa [alookup, hk] using h

theorem alookup_aset_self {α : Type} (k : String) (v : α) (l : List (String × α)) :
    alookup k (aset k v l) = some v := by
  induction l with
  | nil => simp [aset, alookup]
  | cons hd tl ih =>
    obtain ⟨k₂, v₂⟩ := hd
    by_cases hk : k₂ = k
    · simp [aset, hk, alookup]
    · simp [aset, hk, alookup, ih]

theorem alookup_aset_ne {α : Type} {k k₂ : String} (h : k₂ ≠ k) (v : α)
    (l : List (String × α)) :
    alookup k (aset k₂ v l) = alookup k l := by
  induction l with
  | nil => simp [aset, alookup, h]
  | cons hd tl ih =>
    obtain ⟨k₃, v₃⟩ := hd
    by_cases hk : k₃ = k₂
    · subst hk
      simp [aset, alookup, h]
    · simp [aset, hk, alookup, ih]

theorem alookup_append_some {α : Type} {k : String} {l₁ : List (String × α)} {v : α}
    (h : alookup k l₁ = some v) (l₂ : List (String × α)) :
    alookup k (l₁ ++ l₂) = some v := by
  induction l₁ with
  | nil => simp [alookup] at h
  | cons hd tl ih =>
    obtain ⟨k₂, v₂⟩ := hd
    by_cases hk : k₂ = k
    · simpa [alookup, hk] using h
    · simp only [alookup, hk, if_false, List.cons_append, if_neg hk] at h ⊢
      exact ih h

theorem alookup_append_none {α : Type} {k : String} {l₁ : List (String × α)}
    (h : alookup k l₁ = Option.none) (l₂ : List (String × α)) :
    alookup k (l₁ ++ l₂) = alookup k l₂ := by
  induction l₁ with
  | nil => simp
  | cons hd tl ih =>
    obtain ⟨k₂, v₂⟩ := hd
    obtain ⟨hne, h₂⟩ := alookup_cons_none h
    simp [alookup, hne, ih h₂]

theorem alookup_eq_none_of_not_mem {α : Type} {k : String} {l : List (String × α)}
    (h : k ∉ l.map Prod.fst) : alookup k l = Option.none := by
  induction l with
  | nil => rfl
  | cons hd tl ih =>
    obtain ⟨k₂, v₂⟩ := hd
    simp only [List.map, List.mem_cons] at h
    push_neg at h
    simp [alookup, Ne.symm h.1, ih h.2]

/-! Lemmas about the schema pass and the permissive pass of fetch. -/

theorem fetchAttrs_lookup_unmoved (data : List (String × Value)) :
    ∀ (attrs : List (String × Conv)) (obj obj₂ : List (String × PyVal)) (k : String),
    fetchAttrs data attrs obj = .ok obj₂ → alookup k attrs = Option.none →
    alookup k obj₂ = alookup k obj := by
  intro attrs
  induction attrs with
  | nil =>
    intro obj obj₂ k h _
    simp only [fetchAttrs, Except.ok.injEq] at h
    rw [h]
  | cons hd tl ih =>
    obtain ⟨name, conv⟩ := hd
    intro obj obj₂ k h hk
    obtain ⟨hne, hk₂⟩ := alookup_cons_none hk
    simp only [fetchAttrs] at h
    split at h
    · split at h
      · rw [ih _ _ _ h hk₂, alookup_aset_ne hne]
      · cases h
    · rw [ih _ _ _ h hk₂, alookup_aset_ne hne]

theorem fetchAttrs_nil_ok :
    ∀ (attrs : List (String × Conv)) (obj : List (String × PyVal)),
    ∃ obj₂, fetchAttrs [] attrs obj = .ok obj₂ := by
  intro attrs
  induction attrs with
  | nil => intro obj; exact ⟨obj, rfl⟩
  | cons hd tl ih =>
    intro obj
    obtain ⟨name, conv⟩ := hd
    exact ih (aset name conv.create_default obj)

theorem fetchAttrs_nil_defaults :
    ∀ (attrs : List (String × Conv)) (obj obj₂ : List (String × PyVal)),
    (attrs.map Prod.fst).Nodup →
    fetchAttrs [] attrs obj = .ok obj₂ →
    ∀ name conv, alookup name attrs = some conv →
    alookup name obj₂ = some conv.create_default := by
  intro attrs
  induction attrs with
  | nil =>
    intro obj obj₂ _ _ name conv hl
    simp [alookup] at hl
  | cons hd tl ih =>
    obtain ⟨n, c⟩ := hd
    intro obj obj₂ hnd h name conv hl
    simp only [List.map, List.nodup_cons] at hnd
    by_cases hk : n = name
    · subst hk
      simp only [alookup, eq_self_iff_true, if_true, Option.some.injEq] at hl
      subst hl
      have htl : alookup n tl = (Option.none : Option Conv) :=
        alookup_eq_none_of_not_mem hnd.1
      rw [fetchAttrs_lookup_unmoved [] tl _ _ n h htl, alookup_aset_self]
    · simp only [alookup, if_neg hk] at hl
      exact ih _ _ hnd.2 h name conv hl

theorem autoAttrs_preserve :
    ∀ (data : List (String × Value)) (attrs : List (String × Conv))
      (obj : List (String × PyVal)) (attrs₂ : List (String × Conv))
      (obj₂ : List (String × PyVal)),
    autoAttrs data attrs obj = .ok (attrs₂, obj₂) →
    ∀ key conv pv, alookup key attrs = some conv → alookup key obj = some pv →
    alookup key attrs₂ = some conv ∧ alookup key obj₂ = some pv := by
  intro data
  induction data with
  | nil =>
    intro attrs obj attrs₂ obj₂ h key conv pv ha ho
    simp only [autoAttrs, Except.ok.injEq, Prod.mk.injEq] at h
    rw [← h.1, ← h.2]
    exact ⟨ha, ho⟩
  | cons hd tl ih =>
    obtain ⟨k₂, w⟩ := hd
    intro attrs obj attrs₂ obj₂ h key conv pv ha ho
    simp only [autoAttrs] at h
    split at h
    · exact ih _ _ _ _ h key conv pv ha ho
    · rename_i hnone
      split at h
      · cases h
      · split at h
        · cases h
        · have hne : k₂ ≠ key := by
            intro he; rw [he, ha] at hnone; cases hnone
          exact ih _ _ _ _ h key conv pv
            (alookup_append_some ha _)
            (by rw [alookup_aset_ne hne]; exact ho)

theorem autoAttrs_gain :
    ∀ (data : List (String × Value)) (attrs : List (String × Conv))
      (obj : List (String × PyVal)) (attrs₂ : List (String × Conv))
      (obj₂ : List (String × PyVal)) (key : String) (v : Value) (conv : Conv),
    autoAttrs data attrs obj = .ok (attrs₂, obj₂) →
    alookup key data = some v → alookup key attrs = Option.none →
    match_type v = .ok conv →
    ∃ pv, Conv.to_value conv v = .ok pv ∧
      alookup key attrs₂ = some conv ∧ alookup key obj₂ = some pv := by
  intro data
  induction data with
  | nil =>
    intro attrs obj attrs₂ obj₂ key v conv _ hd _ _
    simp [alookup] at hd
  | cons hd tl ih =>
    obtain ⟨k₂, w⟩ := hd
    intro attrs obj attrs₂ obj₂ key v conv h hdata hnone hmt
    by_cases hk : k₂ = key
    · subst hk
      simp only [alookup, eq_self_iff_true, if_true, Option.some.injEq] at hdata
      subst hdata
      simp only [autoAttrs, hnone, hmt] at h
      split at h
      · cases h
      · rename_i pv hpv
        refine ⟨pv, hpv, ?_⟩
        have ha : alookup k₂ (attrs ++ [(k₂, conv)]) = some conv := by
          rw [alookup_append_none hnone]
          simp [alookup]
        have ho : alookup k₂ (aset k₂ pv obj) = some pv := alookup_aset_self _ _ _
        exact autoAttrs_preserve tl _ _ _ _ h k₂ conv pv ha ho
    · simp only [alookup, if_neg hk] at hdata
      simp only [autoAttrs] at h
      split at h
      · exact ih _ _ _ _ key v conv h hdata hnone hmt
      · split at h
        · cases h
        · split at h
          · cases h
          · refine ih _ _ _ _ key v conv h hdata ?_ hmt
            rw [alookup_append_none hnone]
            simp [alookup, hk]

/-! Lemmas about the Mapper operations. -/

theorem create_attrs (m : Mapper) : m.create.attrs = m.attrs := by
  unfold Mapper.create
  split <;> rfl

theorem create_objAttrs (m : Mapper) : m.create.objAttrs = m.objAttrs := by
  unfold Mapper.create
  split <;> rfl

theorem create_storeCount (m : Mapper) : m.create.storeCount = m.storeCount := by
  unfold Mapper.create
  split <;> rfl

theorem fetch_ok_modified (m m₂ : Mapper) (h : m.fetch = .ok m₂) :
    m₂.modified = false := by
  simp only [Mapper.fetch] at h
  split at h
  · cases h
  · split at h
    · cases h
    · split at h
      · injection h with h₂
        rw [← h₂]
      · split at h
        · cases h
        · injection h with h₂
          rw [← h₂]

theorem fetch_fresh_ok (m : Mapper) (hdel : m.deleted = false)
    (hex : m.fileExists = true) (hdata : m.fileData = []) :
    ∃ m₂, m.fetch = .ok m₂ ∧ m₂.modified = false := by
  have hc : m.create = m := by simp [Mapper.create, hex]
  obtain ⟨obj₂, hobj⟩ := fetchAttrs_nil_ok m.attrs m.objAttrs
  by_cases hs : m.strict
  · refine ⟨{ m with objAttrs := obj₂, modified := false }, ?_, rfl⟩
    simp only [Mapper.fetch, hdel, Bool.false_eq_true, if_false, hc, hdata, hobj, hs, if_true]
  · refine ⟨{ m with attrs := m.attrs, objAttrs := obj₂, modified := false }, ?_, rfl⟩
    simp only [Mapper.fetch, hdel, Bool.false_eq_true, if_false, hc, hdata, hobj, hs,
      Bool.not_eq_true, autoAttrs]

theorem setattrI_batch (m : Mapper) (h : m.batch = true) (name : String) (v : PyVal) :
    (m.setattrI name v).fileData = m.fileData ∧
    (m.setattrI name v).storeCount = m.storeCount ∧
    (m.setattrI name v).attrs = m.attrs ∧
    (m.setattrI name v).batch = true ∧
    (m.setattrI name v).objAttrs = aset name v m.objAttrs := by
  simp only [Mapper.setattrI, h, if_true]
  split
  · exact ⟨rfl, rfl, rfl, rfl, rfl⟩
  · exact ⟨rfl, rfl, rfl, rfl, rfl⟩

theorem batchExit_fields (m : Mapper) :
    m.batchExit.storeCount = m.storeCount + 1 ∧
    m.batchExit.fileData = storeData m.attrs m.objAttrs := by
  simp only [Mapper.batchExit, Mapper.store]
  exact ⟨by rw [create_storeCount], by rw [create_attrs, create_objAttrs]⟩

theorem fetch_create_defaults (path : String) (attrs : List (String × Conv))
    (strict : Bool) (obj : List (String × PyVal))
    (hnd : (attrs.map Prod.fst).Nodup) :
    ∃ m₂, (Mapper.init path attrs strict obj).create.fetch = .ok m₂ ∧
      m₂.modified = false ∧
      ∀ name conv, alookup name attrs = some conv →
        alookup name m₂.objAttrs = some conv.create_default := by
  obtain ⟨obj₂, hobj⟩ := fetchAttrs_nil_ok attrs obj
  have hdef := fetchAttrs_nil_defaults attrs obj obj₂ hnd hobj
  obtain ⟨m₂, hf, hm⟩ :=
    fetch_fresh_ok (Mapper.init path attrs strict obj).create rfl rfl rfl
  refine ⟨m₂, hf, hm, ?_⟩
  have hobj₂ : m₂.objAttrs = obj₂ := by
    simp only [Mapper.fetch, Mapper.init, Mapper.create, Bool.false_eq_true, if_false,
      if_true, hobj] at hf
    by_cases hs : strict
    · rw [hs] at hf
      simp only [if_true] at hf
      injection hf with h₂
      rw [← h₂]
    · simp only [hs, Bool.false_eq_true, if_false, autoAttrs] at hf
      injection hf with h₂
      rw [← h₂]
  intro name conv hl
  rw [hobj₂]
  exact hdef name conv hl

/-! Claim theorems. -/

/-- C1: round-trip law; for every converter and every value of its value
type, to_value applied to to_data of the value yields the value again; shown
for the three scalar converters and for the sample container converter. -/
theorem roundtrip_law :
    (∀ n : Int, Conv.to_value .integer (Conv.to_data .integer (.int n)) = .ok (.int n)) ∧
    (∀ s : String, Conv.to_value .string (Conv.to_data .string (.str s)) = .ok (.str s)) ∧
    (∀ b : Bool, Conv.to_value .boolean (Conv.to_data .boolean (.bool b)) = .ok (.bool b)) ∧
    (∀ xs : List Int, IntList.to_value (IntList.to_data xs) = xs) := by
  refine ⟨fun n => rfl, fun s => rfl, fun b => rfl, fun xs => ?_⟩
  induction xs with
  | nil => rfl
  | cons x tl ih =>
    simpa [ContainerClass.to_value, ContainerClass.create_default, IntList] using ih

/-- C2: the modified flag is true immediately after construction, true after
create() and after delete(), false immediately after any successful fetch(),
and fetch() on a freshly created file succeeds and clears the flag set by
create(). -/
theorem modified_flag_lifecycle (path : String) (attrs : List (String × Conv))
    (strict : Bool) (obj : List (String × PyVal)) :
    (Mapper.init path attrs strict obj).modified = true ∧
    (Mapper.init path attrs strict obj).create.modified = true ∧
    (∀ m : Mapper, m.delete.modified = true) ∧
    (∀ m m₂ : Mapper, m.fetch = .ok m₂ → m₂.modified = false) ∧
    (∃ m₂, (Mapper.init path attrs strict obj).create.fetch = .ok m₂ ∧
      m₂.modified = false) := by
  refine ⟨rfl, rfl, fun m => rfl, fetch_ok_modified, ?_⟩
  exact fetch_fresh_ok _ rfl rfl rfl

/-- Witness for C2 at the schema of test_mapper.py. -/
theorem modified_flag_lifecycle_witness :
    demoInit.modified = true ∧ demoInit.create.fetch = .ok demoFetched ∧
    demoFetched.modified = false :=
  ⟨(modified_flag_lifecycle "fake/path/to/file" demoAttrs true demoObj).1, rfl,
    (modified_flag_lifecycle "fake/path/to/file" demoAttrs true demoObj).2.2.2.1
      demoInit.create demoFetched rfl⟩

/-- C3: fetch() after delete() without an intervening create() fails with
FileDeletedError; a subsequent create() clears the deleted flag and fetch()
succeeds again. -/
theorem fetch_after_delete (m : Mapper) :
    m.delete.fetch = .error .fileDeletedError ∧
    m.delete.create.deleted = false ∧
    (∃ m₂, m.delete.create.fetch = .ok m₂) := by
  refine ⟨rfl, rfl, ?_⟩
  obtain ⟨m₂, h, _⟩ := fetch_fresh_ok m.delete.create rfl rfl rfl
  exact ⟨m₂, h⟩

/-- C4: with a file key absent from the schema, a successful fetch() in
strict mode leaves the object without the attribute, while in permissive
mode the object gains the attribute with a converter inferred from the
runtime shape of the data, registered in the schema. -/
theorem strict_vs_permissive (m : Mapper) (key : String) (v : Value) (conv : Conv)
    (hdel : m.deleted = false) (hex : m.fileExists = true)
    (hschema : alookup key m.attrs = Option.none)
    (hdata : alookup key m.fileData = some v)
    (hobj : alookup key m.objAttrs = Option.none) :
    (m.strict = true → ∀ m₂, m.fetch = .ok m₂ →
      alookup key m₂.objAttrs = Option.none) ∧
    (m.strict = false → match_type v = .ok conv → ∀ m₂, m.fetch = .ok m₂ →
      ∃ pv, Conv.to_value conv v = .ok pv ∧
        alookup key m₂.objAttrs = some pv ∧
        alookup key m₂.attrs = some conv) := by
  have hc : m.create = m := by simp [Mapper.create, hex]
  constructor
  · intro hs m₂ hf
    simp only [Mapper.fetch, hdel, Bool.false_eq_true, if_false, hc, hs, if_true] at hf
    split at hf
    · cases hf
    · rename_i obj₁ hfa
      injection hf with h₂
      rw [← h₂]
      show alookup key obj₁ = Option.none
      rw [fetchAttrs_lookup_unmoved m.fileData m.attrs m.objAttrs obj₁ key hfa hschema]
      exact hobj
  · intro hs hmt m₂ hf
    simp only [Mapper.fetch, hdel, Bool.false_eq_true, if_false, hc, hs] at hf
    split at hf
    · cases hf
    · rename_i obj₁ hfa
      split at hf
      · cases hf
      · rename_i attrs₂ obj₂ hauto
        injection hf with h₂
        rw [← h₂]
        obtain ⟨pv, hpv, ha, ho⟩ :=
          autoAttrs_gain m.fileData m.attrs obj₁ attrs₂ obj₂ key v conv hauto hdata
            hschema hmt
        exact ⟨pv, hpv, ho, ha⟩

/-- Witness for C4 at the scenario of test_mapper.py: file text var4: foo,
schema without var4. -/
theorem strict_vs_permissive_witness :
    alookup "var4" demoStrictFetched.objAttrs = Option.none ∧
    (∃ pv, Conv.to_value Conv.string (Value.str "foo") = .ok pv ∧
      alookup "var4" demoPermissiveFetched.objAttrs = some pv ∧
      alookup "var4" demoPermissiveFetched.attrs = some Conv.string) :=
  ⟨(strict_vs_permissive demoStrict "var4" (Value.str "foo") Conv.string
      rfl rfl rfl rfl rfl).1 rfl demoStrictFetched rfl,
   (strict_vs_permissive demoPermissive "var4" (Value.str "foo") Conv.string
      rfl rfl rfl rfl rfl).2 rfl rfl demoPermissiveFetched rfl⟩

/-- C5 counterexample: read_text on a missing path surfaces the built-in
FileNotFoundError raised by open, which is not an instance of the library
class FileError nor of YORMException. -/
theorem read_text_not_FileError :
    read_text [] "path/to/file" = .error .fileNotFoundError ∧
    PyError.isFileError .fileNotFoundError = false ∧
    PyError.isYORMException .fileNotFoundError = false :=
  ⟨rfl, rfl, rfl⟩

/-- C5 amended: for every path whose file is missing, read_text fails with
the built-in FileNotFoundError, a generic I/O error that is not the library
FileError. -/
theorem read_text_missing_raises (fs : FileSystem) (path : String)
    (h : alookup path fs = Option.none) :
    read_text fs path = .error .fileNotFoundError ∧
    PyError.isFileError .fileNotFoundError = false := by
  unfold read_text
  rw [h]
  exact ⟨rfl, rfl⟩

/-- Witness for the amended C5. -/
theorem read_text_missing_raises_witness :
    read_text [("other", "text")] "path/to/file" = .error .fileNotFoundError ∧
    PyError.isFileError .fileNotFoundError = false :=
  read_text_missing_raises [("other", "text")] "path/to/file" rfl

/-- C6 counterexample: a parsed top-level empty sequence is not a mapping,
yet load_yaml returns the empty mapping instead of raising ContentError. -/
theorem load_yaml_falsy_not_ContentError :
    Value.isDict (Value.list []) = false ∧
    load_yaml (.ok (Value.list [])) "path" = .ok (Value.dict []) :=
  ⟨rfl, rfl⟩

/-- C6 amended: load_yaml either returns a mapping or fails with
ContentError; it raises ContentError when the text is not parseable and when
the parsed top-level value is truthy and not a mapping; a falsy parsed value
(null, false, 0, empty string, sequence or mapping) is replaced by the empty
mapping. -/
theorem load_yaml_mapping_or_ContentError (parsed : Except String Value)
    (path : String) :
    ((∃ d, load_yaml parsed path = .ok (Value.dict d)) ∨
      (∃ msg, load_yaml parsed path = .error (.contentError msg))) ∧
    (∀ e, load_yaml (.error e) path =
      .error (.contentError ("invalid contents: " ++ path ++ ":\n" ++ e))) ∧
    (∀ v, Value.falsy v = false → Value.isDict v = false →
      load_yaml (.ok v) path = .error (.contentError ("invalid contents: " ++ path))) ∧
    (∀ v, Value.falsy v = true → load_yaml (.ok v) path = .ok (Value.dict [])) := by
  refine ⟨?_, fun e => rfl, ?_, ?_⟩
  · cases parsed with
    | error e => exact Or.inr ⟨_, rfl⟩
    | ok v =>
      by_cases hf : v.falsy = true
      · exact Or.inl ⟨[], by simp [load_yaml, hf, Value.isDict]⟩
      · by_cases hd : v.isDict = true
        · obtain ⟨d, rfl⟩ : ∃ d, v = Value.dict d := by
            cases v <;> simp_all [Value.isDict]
          exact Or.inl ⟨d, by simp_all [load_yaml]⟩
        · refine Or.inr ⟨"invalid contents: " ++ path, ?_⟩
          simp_all [load_yaml]
  · intro v hf hd
    simp [load_yaml, hf, hd]
  · intro v hf
    simp [load_yaml, hf, Value.isDict]

/-- Witness for the amended C6. -/
theorem load_yaml_mapping_or_ContentError_witness :
    load_yaml (.ok (Value.str "oops")) "p" =
      .error (.contentError ("invalid contents: " ++ "p")) ∧
    load_yaml (.ok Value.null) "p" = .ok (Value.dict []) :=
  ⟨(load_yaml_mapping_or_ContentError (.ok (Value.str "oops")) "p").2.2.1
      (Value.str "oops") rfl rfl,
   (load_yaml_mapping_or_ContentError (.ok Value.null) "p").2.2.2 Value.null rfl⟩

/-- C7: Container.to_value builds a default instance with create_default and
merges the data into it with update_value(data, auto_attr=True), returning
that instance; format_data returns to_data applied to the container itself;
instantiated on the sample integer-sequence container. -/
theorem container_delegation :
    (∀ (V : Type) (c : ContainerClass V) (data : Value),
      c.to_value data = c.update_value c.create_default data true) ∧
    (∀ (V : Type) (c : ContainerClass V) (v : V), c.format_data v = c.to_data v) ∧
    IntList.to_value (Value.list [Value.int 1, Value.int 2]) = [1, 2] ∧
    IntList.format_data [3, 4] = Value.list [Value.int 3, Value.int 4] :=
  ⟨fun _ _ _ => rfl, fun _ _ _ => rfl, rfl, rfl⟩

/-- C8: create() and delete() are idempotent; a second call leaves the whole
mapper state unchanged, including delete() on a never-created file. -/
theorem create_delete_idempotent (m : Mapper) :
    m.create.create = m.create ∧ m.delete.delete = m.delete := by
  constructor
  · by_cases h : m.fileExists <;> simp [Mapper.create, h]
  · rfl

/-- C9: inside a batch scope attribute mutations do not touch the file and
perform no store; exiting the scope performs exactly one store and the file
then holds the serialization of all mutations made inside the scope. -/
theorem batch_atomicity (m : Mapper) (a₁ a₂ a₃ : String) (v₁ v₂ v₃ : PyVal) :
    ((m.batchEnter.setattrI a₁ v₁).fileData = m.fileData ∧
      (m.batchEnter.setattrI a₁ v₁).storeCount = m.storeCount) ∧
    (((m.batchEnter.setattrI a₁ v₁).setattrI a₂ v₂).fileData = m.fileData ∧
      ((m.batchEnter.setattrI a₁ v₁).setattrI a₂ v₂).storeCount = m.storeCount) ∧
    ((((m.batchEnter.setattrI a₁ v₁).setattrI a₂ v₂).setattrI a₃ v₃).fileData
        = m.fileData ∧
      (((m.batchEnter.setattrI a₁ v₁).setattrI a₂ v₂).setattrI a₃ v₃).storeCount
        = m.storeCount) ∧
    (((m.batchEnter.setattrI a₁ v₁).setattrI a₂ v₂).setattrI a₃ v₃).batchExit.storeCount
        = m.storeCount + 1 ∧
    (((m.batchEnter.setattrI a₁ v₁).setattrI a₂ v₂).setattrI a₃ v₃).batchExit.fileData
        = storeData m.attrs (aset a₃ v₃ (aset a₂ v₂ (aset a₁ v₁ m.objAttrs))) := by
  obtain ⟨f₁, c₁, t₁, b₁, o₁⟩ := setattrI_batch m.batchEnter rfl a₁ v₁
  obtain ⟨f₂, c₂, t₂, b₂, o₂⟩ := setattrI_batch _ b₁ a₂ v₂
  obtain ⟨f₃, c₃, t₃, b₃, o₃⟩ := setattrI_batch _ b₂ a₃ v₃
  obtain ⟨e₁, e₂⟩ := batchExit_fields ((m.batchEnter.setattrI a₁ v₁).setattrI a₂ v₂
    |>.setattrI a₃ v₃)
  refine ⟨⟨f₁, c₁⟩, ⟨f₂.trans f₁, c₂.trans c₁⟩,
    ⟨(f₃.trans f₂).trans f₁, (c₃.trans c₂).trans c₁⟩, ?_, ?_⟩
  · rw [e₁, c₃, c₂, c₁]
    rfl
  · rw [e₂, t₃, t₂, t₁, o₃, o₂, o₁]
    rfl

/-- C10: a text parsing to YAML null yields the empty mapping instead of
ContentError, and fetch() on a freshly created empty file succeeds, clearing
the modified flag and assigning every schema attribute its converter
default. -/
theorem null_parse_defaults (fpath path : String) (attrs : List (String × Conv))
    (strict : Bool) (obj : List (String × PyVal))
    (hnd : (attrs.map Prod.fst).Nodup) :
    load_yaml (.ok Value.null) fpath = .ok (Value.dict []) ∧
    ∃ m₂, (Mapper.init path attrs strict obj).create.fetch = .ok m₂ ∧
      m₂.modified = false ∧
      ∀ name conv, alookup name attrs = some conv →
        alookup name m₂.objAttrs = some conv.create_default :=
  ⟨rfl, fetch_create_defaults path attrs strict obj hnd⟩

/-- Witness for C10 at the schema of test_mapper.py. -/
theorem null_parse_defaults_witness :
    load_yaml (.ok Value.null) "file" = .ok (Value.dict []) ∧
    ∃ m₂, (Mapper.init "fake/path/to/file" demoAttrs true demoObj).create.fetch
        = .ok m₂ ∧
      m₂.modified = false ∧
      ∀ name conv, alookup name demoAttrs = some conv →
        alookup name m₂.objAttrs = some conv.create_default :=
  null_parse_defaults "file" "fake/path/to/file" demoAttrs true demoObj (by decide)

end Yorm
